import Mathlib

/-!
Shallow embedding of the booking subsystem of the service-provider
application (document models, booking state machine, command objects,
observer notifications, and the owner-facing accept/reject views), with
theorems settling the specification claims about it.

Datetimes are modelled as integers (minutes); the document database is a
record of lists of documents, passed explicitly through every operation;
raising Python code returns `Except String`.
-/

namespace ServiceProvider

/-- Datetime instants and minute durations, modelled as integers. -/
abbrev Time := Int

/-- An association-list model of a Python dict with string keys
(`Booking.timestamps`). Assignment `d[k] = v` replaces an existing
binding or appends a new one. -/
def dictSet (m : List (String × Time)) (k : String) (v : Time) :
    List (String × Time) :=
  if m.any (fun p => p.1 == k) then
    m.map (fun p => if p.1 == k then (k, v) else p)
  else
    m ++ [(k, v)]

/-- Dict lookup `d.get(k)`. -/
def dictGet (m : List (String × Time)) (k : String) : Option Time :=
  (m.find? (fun p => p.1 == k)).map (·.2)

/-- Dict removal `d.pop(k, None)`. -/
def dictPop (m : List (String × Time)) (k : String) :
    List (String × Time) :=
  m.filter (fun p => p.1 != k)

/-- From `models/booking.py`: the Booking document. `price` is a FloatField in
the source; no claim computes with it, so it is carried as an integer. -/
structure Booking where
  booking_id : String
  business_id : String
  service_id : String
  customer_id : String
  staff_id : Option String := none
  booking_time : Time
  duration_minutes : Int
  price : Int := 0
  status : String := "requested"
  payment_method : String := "cash"
  notes : Option String := none
  timestamps : List (String × Time) := []
  created_at : Time := 0
  updated_at : Time := 0
deriving Repr, DecidableEq

/-- From `models/business.py`: the Business document (fields the claims use;
`owner_id` is optional in the source). -/
structure Business where
  business_id : String
  owner_id : Option String := none
  name : String
  category : String
  is_active : Bool := true
  updated_at : Time := 0
deriving Repr, DecidableEq

/-- From `models/business.py`: the Service document. -/
structure Service where
  service_id : String
  business_id : String
  name : String
  price : Int := 0
  duration_minutes : Int := 60
  is_active : Bool := true
  updated_at : Time := 0
deriving Repr, DecidableEq

/-- From `models/user.py`: the User document (fields the claims use). -/
structure User where
  user_id : String
  email : String := ""
  phone : String := ""
  name : String := ""
  role : String := "customer"
deriving Repr, DecidableEq

/-- From `models/category.py`: the CategoryModel document. -/
structure CategoryModel where
  name : String
  display_name : String := ""
deriving Repr, DecidableEq

/-- The document database: one list of documents per collection.
MongoDB natural order is modelled by list order (insertion order), so
`.first()` on an unordered query is the first list element matching the
filter. -/
structure Db where
  bookings : List Booking := []
  businesses : List Business := []
  services : List Service := []
  users : List User := []
  categories : List CategoryModel := []
deriving Repr, DecidableEq

/-- From `Booking.objects.get(booking_id=...)`: `none` models DoesNotExist. -/
def Db.getBooking (db : Db) (bid : String) : Option Booking :=
  db.bookings.find? (fun b => b.booking_id == bid)

/-- From `Business.objects.get(business_id=...)`. -/
def Db.getBusiness (db : Db) (bid : String) : Option Business :=
  db.businesses.find? (fun b => b.business_id == bid)

/-- From `Service.objects.get(service_id=...)`. -/
def Db.getService (db : Db) (sid : String) : Option Service :=
  db.services.find? (fun s => s.service_id == sid)

/-- From `User.objects.get(user_id=...)`. -/
def Db.getUser (db : Db) (uid : String) : Option User :=
  db.users.find? (fun u => u.user_id == uid)

/-- From `Booking.save()`: update the stored document with the same primary
key, or insert the document if it is new. -/
def Db.saveBooking (db : Db) (b : Booking) : Db :=
  if db.bookings.any (fun x => x.booking_id == b.booking_id) then
    { db with bookings :=
        db.bookings.map (fun x => if x.booking_id == b.booking_id then b else x) }
  else
    { db with bookings := db.bookings ++ [b] }

/-- From `Business.save()` for an existing document. -/
def Db.saveBusiness (db : Db) (b : Business) : Db :=
  { db with businesses :=
      db.businesses.map (fun x => if x.business_id == b.business_id then b else x) }

/-- From `Service.save()` for an existing document. -/
def Db.saveService (db : Db) (s : Service) : Db :=
  { db with services :=
      db.services.map (fun x => if x.service_id == s.service_id then s else x) }

/-- From `models/booking.py` `BOOKING_STATUSES`. -/
def BOOKING_STATUSES : List String :=
  ["requested", "accepted", "rejected", "cancelled", "completed"]

/-- From `Booking.update_status`: validate membership in `BOOKING_STATUSES`,
set the status, record `<status>_at` in the timestamps dict, refresh
`updated_at`, and save (the save is performed by the caller through
`Db.saveBooking`). -/
def Booking.update_status (b : Booking) (new_status : String) (now : Time) :
    Except String Booking :=
  if BOOKING_STATUSES.contains new_status then
    Except.ok { b with
      status := new_status,
      timestamps := dictSet b.timestamps (new_status ++ "_at") now,
      updated_at := now }
  else
    Except.error ("Invalid status: " ++ new_status)

/-- From `controllers/booking_controller.py` `update_booking_status`: the
state-machine table `valid_transitions`, with `.get(current, [])`. -/
def valid_transitions (current : String) : List String :=
  if current == "requested" then ["accepted", "rejected", "cancelled"]
  else if current == "accepted" then ["completed", "cancelled"]
  else if current == "rejected" then []
  else if current == "cancelled" then []
  else if current == "completed" then []
  else []

/-! ## Observer pattern (`patterns/observer_booking.py`) -/

/-- Side effects of the notification observers: log lines and flask
flash messages (message, category). Observers perform no other effect. -/
inductive Effect where
  | log (msg : String)
  | flash (msg : String) (category : String)
deriving Repr, DecidableEq

/-- A booking observer: `update(booking, status)` runs against the
database and either returns an (updated database, effects) pair or
raises. The three concrete observers in the source never raise (their
bodies are wrapped in a try/except that logs) and never write. -/
def BookingObserver : Type :=
  Db → Booking → String → Except String (Db × List Effect)

/-- From `EmailNotifier.update`: message text per status. -/
def emailMessage (businessName status : String) : String :=
  if status == "requested" then
    "Your booking request at " ++ businessName ++ " has been submitted."
  else if status == "accepted" then
    "Great news! Your booking at " ++ businessName ++ " has been accepted."
  else if status == "rejected" then
    "Unfortunately, your booking at " ++ businessName ++ " has been rejected."
  else if status == "cancelled" then
    "Your booking at " ++ businessName ++ " has been cancelled."
  else if status == "completed" then
    "Thank you! Your service at " ++ businessName ++ " is complete."
  else
    "Booking status updated to " ++ status

/-- From `EmailNotifier.update`: look up customer and business, log the email
and flash it; any lookup failure is caught internally and logged. -/
def EmailNotifier.update : BookingObserver := fun db booking status =>
  match db.getUser booking.customer_id, db.getBusiness booking.business_id with
  | some customer, some business =>
      let message := emailMessage business.name status
      Except.ok (db,
        [Effect.log ("[EMAIL] To: " ++ customer.email ++ ", Subject: Booking "
            ++ status ++ ", Message: " ++ message),
         Effect.flash ("Email notification: " ++ message) "info"])
  | _, _ =>
      Except.ok (db, [Effect.log "Failed to send email notification: DoesNotExist"])

/-- From `SMSNotifier.update`: message text per status. -/
def smsMessage (businessName status : String) (bookingTime : Time) : String :=
  if status == "requested" then
    "Booking request submitted at " ++ businessName
  else if status == "accepted" then
    "Booking accepted at " ++ businessName ++ "! Time: " ++ toString bookingTime
  else if status == "rejected" then
    "Booking rejected at " ++ businessName
  else if status == "cancelled" then
    "Booking cancelled at " ++ businessName
  else if status == "completed" then
    "Service completed at " ++ businessName ++ ". Thank you!"
  else
    "Booking status: " ++ status

/-- From `SMSNotifier.update`: look up customer and business, log the SMS and
flash it; lookup failures are caught internally and logged. -/
def SMSNotifier.update : BookingObserver := fun db booking status =>
  match db.getUser booking.customer_id, db.getBusiness booking.business_id with
  | some customer, some business =>
      let message := smsMessage business.name status booking.booking_time
      Except.ok (db,
        [Effect.log ("[SMS] To: " ++ customer.phone ++ ", Message: " ++ message),
         Effect.flash ("SMS notification: " ++ message) "info"])
  | _, _ =>
      Except.ok (db, [Effect.log "Failed to send SMS notification: DoesNotExist"])

/-- From `BusinessNotifier.update`: notify the owner for requested/cancelled
only; lookup failures (including a business without `owner_id`) are
caught internally and logged. -/
def BusinessNotifier.update : BookingObserver := fun db booking status =>
  match db.getBusiness booking.business_id with
  | none => Except.ok (db, [Effect.log "Failed to notify business: DoesNotExist"])
  | some business =>
    match business.owner_id.bind db.getUser, db.getUser booking.customer_id with
    | some owner, some customer =>
        if status == "requested" then
          Except.ok (db, [Effect.log ("[BUSINESS EMAIL] To: " ++ owner.email
            ++ ", Subject: New Booking Request, Message: New booking request from "
            ++ customer.name ++ " for " ++ toString booking.booking_time)])
        else if status == "cancelled" then
          Except.ok (db, [Effect.log ("[BUSINESS EMAIL] To: " ++ owner.email
            ++ ", Subject: Booking Cancelled, Message: Customer " ++ customer.name
            ++ " cancelled booking for " ++ toString booking.booking_time)])
        else
          Except.ok (db, [])
    | _, _ =>
        Except.ok (db, [Effect.log "Failed to notify business: DoesNotExist"])

/-- Outcome of one observer inside `notify`: its effects when `update`
returns, or the error log written by the `except` arm when it raises. -/
inductive NotifyOutcome where
  | ok (effects : List Effect)
  | failed (msg : String)
deriving Repr, DecidableEq

/-- From `BookingNotificationSubject.notify`: run every attached observer in
order; an observer that raises is caught (logged) and the loop
continues, so each observer yields exactly one outcome. -/
def BookingNotificationSubject.notify (observers : List BookingObserver)
    (db : Db) (booking : Booking) (status : String) :
    Db × List NotifyOutcome :=
  match observers with
  | [] => (db, [])
  | o :: rest =>
    match o db booking status with
    | Except.ok (db1, effects) =>
        let r := BookingNotificationSubject.notify rest db1 booking status
        (r.1, NotifyOutcome.ok effects :: r.2)
    | Except.error msg =>
        let r := BookingNotificationSubject.notify rest db booking status
        (r.1, NotifyOutcome.failed msg :: r.2)

/-- The default observers attached to the module-level singleton. -/
def defaultObservers : List BookingObserver :=
  [EmailNotifier.update, SMSNotifier.update, BusinessNotifier.update]

/-- From `notify_booking_status_change`: notify through the singleton subject
holding the three default observers. -/
def notify_booking_status_change (db : Db) (booking : Booking)
    (status : String) : Db × List NotifyOutcome :=
  BookingNotificationSubject.notify defaultObservers db booking status

/-! ## Command pattern (`patterns/command_booking.py`) -/

/-- From `CreateBookingCommand.execute`: fetch the service, check it is
active, run the conflict check (`.first()` over bookings of the business
with `booking_time < end_time` in a non-terminal status, then compare
that one candidate's end against the new start), create and save the
booking with status `requested`, and notify. `new_id` stands for the
generated uuid, `now` for `utcnow`. -/
def CreateBookingCommand.execute (db : Db) (customer_id service_id : String)
    (booking_time : Time) (staff_id : Option String) (notes : Option String)
    (payment_method : String) (new_id : String) (now : Time) :
    Except String (Db × Booking) :=
  match db.getService service_id with
  | none => Except.error "Service matching query does not exist."
  | some service =>
    if !service.is_active then
      Except.error "Service is not active"
    else
      let end_time := booking_time + service.duration_minutes
      let conflict := db.bookings.find? (fun bk =>
        bk.business_id == service.business_id
          && decide (bk.booking_time < end_time)
          && (bk.status == "requested" || bk.status == "accepted"))
      let conflictRaises :=
        match conflict with
        | some c => decide (booking_time < c.booking_time + c.duration_minutes)
        | none => false
      if conflictRaises then
        Except.error "Booking time conflict"
      else
        let booking : Booking :=
          { booking_id := new_id,
            business_id := service.business_id,
            service_id := service_id,
            customer_id := customer_id,
            staff_id := staff_id,
            booking_time := booking_time,
            duration_minutes := service.duration_minutes,
            price := service.price,
            notes := notes,
            payment_method := payment_method,
            status := "requested",
            timestamps := [("requested_at", now)],
            created_at := now,
            updated_at := now }
        let db1 := db.saveBooking booking
        let (db2, _) := notify_booking_status_change db1 booking "requested"
        Except.ok (db2, booking)

/-- From `CreateBookingCommand.undo`: cancel the created booking when it is
still in the `requested` state (`self.booking` is the command's saved
reference to the created document). -/
def CreateBookingCommand.undo (db : Db) (created : Option Booking)
    (now : Time) : Except String Db :=
  match created with
  | some b =>
    if b.status == "requested" then
      match b.update_status "cancelled" now with
      | Except.ok b1 => Except.ok (db.saveBooking b1)
      | Except.error e => Except.error e
    else Except.error "Cannot undo: booking not in requested state"
  | none => Except.error "Cannot undo: booking not in requested state"

/-- From `CancelBookingCommand.execute`: fetch the booking, require a
cancellable status, update to `cancelled`, save, notify. Returns the
previous status alongside (stored by the command for undo). -/
def CancelBookingCommand.execute (db : Db) (booking_id : String)
    (now : Time) : Except String (Db × Booking × String) :=
  match db.getBooking booking_id with
  | none => Except.error "Booking matching query does not exist."
  | some booking =>
    let previous_status := booking.status
    if !(booking.status == "requested" || booking.status == "accepted") then
      Except.error ("Cannot cancel booking with status: " ++ booking.status)
    else
      match booking.update_status "cancelled" now with
      | Except.ok b1 =>
          let db1 := db.saveBooking b1
          let (db2, _) := notify_booking_status_change db1 b1 "cancelled"
          Except.ok (db2, b1, previous_status)
      | Except.error e => Except.error e

/-- From `CancelBookingCommand.undo`: restore the stored previous status by
direct field assignment, drop the `cancelled_at` timestamp, save. -/
def CancelBookingCommand.undo (db : Db) (booking : Option Booking)
    (previous_status : Option String) : Except String Db :=
  match booking, previous_status with
  | some b, some prev =>
      let b1 := { b with status := prev,
                         timestamps := dictPop b.timestamps "cancelled_at" }
      Except.ok (db.saveBooking b1)
  | _, _ => Except.error "Cannot undo: no previous state stored"

/-- From `AcceptBookingCommand.execute`: fetch the booking and its business,
require the executing user to be the owner and the status to be
`requested`, update to `accepted`, save, notify. -/
def AcceptBookingCommand.execute (db : Db) (booking_id : String)
    (business_owner_id : String) (now : Time) :
    Except String (Db × Booking) :=
  match db.getBooking booking_id with
  | none => Except.error "Booking matching query does not exist."
  | some booking =>
    match db.getBusiness booking.business_id with
    | none => Except.error "Business matching query does not exist."
    | some business =>
      if business.owner_id != some business_owner_id then
        Except.error ("Unauthorized: User " ++ business_owner_id
          ++ " is not the owner of business " ++ business.business_id)
      else if booking.status != "requested" then
        Except.error ("Cannot accept booking with status: " ++ booking.status)
      else
        match booking.update_status "accepted" now with
        | Except.ok b1 =>
            let db1 := db.saveBooking b1
            let (db2, _) := notify_booking_status_change db1 b1 "accepted"
            Except.ok (db2, b1)
        | Except.error e => Except.error e

/-- From `AcceptBookingCommand.undo`: revert the accepted booking to
`requested` by direct assignment, drop `accepted_at`, save. -/
def AcceptBookingCommand.undo (db : Db) (booking : Option Booking) :
    Except String Db :=
  match booking with
  | some b =>
    if b.status == "accepted" then
      let b1 := { b with
        status := "requested",
        timestamps := dictPop b.timestamps "accepted_at" }
      Except.ok (db.saveBooking b1)
    else Except.error "Cannot undo: booking not in accepted state"
  | none => Except.error "Cannot undo: booking not in accepted state"

/-- From `RejectBookingCommand.execute`: same shape as accept, requiring
status `requested` and moving to `rejected`. -/
def RejectBookingCommand.execute (db : Db) (booking_id : String)
    (business_owner_id : String) (now : Time) :
    Except String (Db × Booking) :=
  match db.getBooking booking_id with
  | none => Except.error "Booking matching query does not exist."
  | some booking =>
    match db.getBusiness booking.business_id with
    | none => Except.error "Business matching query does not exist."
    | some business =>
      if business.owner_id != some business_owner_id then
        Except.error ("Unauthorized: User " ++ business_owner_id
          ++ " is not the owner of business " ++ business.business_id)
      else if booking.status != "requested" then
        Except.error ("Cannot reject booking with status: " ++ booking.status)
      else
        match booking.update_status "rejected" now with
        | Except.ok b1 =>
            let db1 := db.saveBooking b1
            let (db2, _) := notify_booking_status_change db1 b1 "rejected"
            Except.ok (db2, b1)
        | Except.error e => Except.error e

/-- From `RejectBookingCommand.undo`: revert the rejected booking to
`requested` by direct assignment, drop `rejected_at`, save. -/
def RejectBookingCommand.undo (db : Db) (booking : Option Booking) :
    Except String Db :=
  match booking with
  | some b =>
    if b.status == "rejected" then
      let b1 := { b with
        status := "requested",
        timestamps := dictPop b.timestamps "rejected_at" }
      Except.ok (db.saveBooking b1)
    else Except.error "Cannot undo: booking not in rejected state"
  | none => Except.error "Cannot undo: booking not in rejected state"

/-- From `CompleteBookingCommand.execute`: fetch the booking, require status
`accepted` (no ownership check is performed in the source), update to
`completed`, save, notify. -/
def CompleteBookingCommand.execute (db : Db) (booking_id : String)
    (now : Time) : Except String (Db × Booking) :=
  match db.getBooking booking_id with
  | none => Except.error "Booking matching query does not exist."
  | some booking =>
    if booking.status != "accepted" then
      Except.error ("Cannot complete booking with status: " ++ booking.status)
    else
      match booking.update_status "completed" now with
      | Except.ok b1 =>
          let db1 := db.saveBooking b1
          let (db2, _) := notify_booking_status_change db1 b1 "completed"
          Except.ok (db2, b1)
      | Except.error e => Except.error e

/-- From `CompleteBookingCommand.undo`: completion is terminal. -/
def CompleteBookingCommand.undo (_db : Db) : Except String Db :=
  Except.error "Cannot undo completion - terminal state"

/-- From `controllers/booking_controller.py` `update_booking_status`: fetch
the booking, validate the transition against `valid_transitions`, then
`Booking.update_status`, save and notify. The authorization block in
the source is a no-op (`pass`). -/
def update_booking_status (db : Db) (booking_id new_status : String)
    (now : Time) : Except String (Db × Booking) :=
  match db.getBooking booking_id with
  | none => Except.error "Booking not found"
  | some booking =>
    if !(valid_transitions booking.status).contains new_status then
      Except.error ("Invalid status transition from " ++ booking.status
        ++ " to " ++ new_status)
    else
      match booking.update_status new_status now with
      | Except.ok b1 =>
          let db1 := db.saveBooking b1
          let (db2, _) := notify_booking_status_change db1 b1 new_status
          Except.ok (db2, b1)
      | Except.error e => Except.error e

/-! ## Views (`views/owner_business.py`, `patterns/decorator_auth.py`) -/

/-- The parts of a flask request the booking views inspect. `xhrHeader`
models `X-Requested-With == XMLHttpRequest` (also the old-flask
`request.is_xhr`), `isJson` a JSON body, `acceptJson` an Accept header
containing application/json. -/
structure Request where
  authenticated : Bool
  role : String
  user_id : String
  xhrHeader : Bool
  isJson : Bool
  acceptJson : Bool
  referrer : Option String := none
deriving Repr, DecidableEq

/-- From `is_ajax_request`: XHR header, JSON body, or a JSON Accept header. -/
def is_ajax_request (r : Request) : Bool :=
  r.xhrHeader || r.isJson || r.acceptJson

/-- A view handler's HTTP answer: a JSON body with a status code, or a
redirect to a named endpoint. -/
inductive HttpResponse where
  | json (code : Nat) (success : Bool) (error : Option String)
  | redirect (target : String)
deriving Repr, DecidableEq

/-- Result of a request: the response, flash messages (message,
category), the database afterwards, and how many times a booking
command's `execute` ran while handling the request. -/
structure ViewResult where
  response : HttpResponse
  flashes : List (String × String) := []
  db : Db
  execCalls : Nat := 0
deriving Repr, DecidableEq

/-- From `decorator_auth.business_owner_required`: 401 JSON for an
unauthenticated XHR request, redirect to login otherwise; 403 JSON for
a non-owner XHR request, redirect home otherwise; else run the view. -/
def business_owner_required (handler : Request → Db → ViewResult)
    (r : Request) (db : Db) : ViewResult :=
  if !r.authenticated then
    if r.xhrHeader then
      { response := HttpResponse.json 401 false (some "Authentication required"),
        db := db }
    else
      { response := HttpResponse.redirect "auth.login",
        flashes := [("Please log in first.", "warning")], db := db }
  else if r.role != "business_owner" then
    if r.xhrHeader then
      { response := HttpResponse.json 403 false (some "Access denied"), db := db }
    else
      { response := HttpResponse.redirect "home.index",
        flashes := [("Access denied. Only business owners can access this page.",
          "danger")], db := db }
  else
    handler r db

/-- From `views/owner_business.py` `accept_booking` (body inside the
decorator): 404 when the booking is missing, 403 when the requester
does not own its business, then one `AcceptBookingCommand.execute`;
success answers JSON or a flash redirect, a command `ValueError` answers
400 only under the `request.is_xhr`/XHR-header test (not the wider
`is_ajax_request`), otherwise a flash redirect to the booking detail. -/
def accept_booking (booking_id : String) (now : Time)
    (r : Request) (db : Db) : ViewResult :=
  match db.getBooking booking_id with
  | none =>
    if is_ajax_request r then
      { response := HttpResponse.json 404 false (some "Booking not found"),
        db := db }
    else
      { response := HttpResponse.redirect "owner_business.view_bookings",
        flashes := [("Booking not found", "danger")], db := db }
  | some booking =>
    let ownerOk :=
      match db.getBusiness booking.business_id with
      | none => false
      | some business => business.owner_id == some r.user_id
    if !ownerOk then
      if is_ajax_request r then
        { response := HttpResponse.json 403 false (some "Unauthorized"), db := db }
      else
        { response := HttpResponse.redirect "owner_business.view_bookings",
          flashes := [("You are not authorized to accept this booking", "danger")],
          db := db }
    else
      match AcceptBookingCommand.execute db booking_id r.user_id now with
      | Except.ok (db1, _result) =>
        if is_ajax_request r then
          { response := HttpResponse.json 200 true none, db := db1, execCalls := 1 }
        else
          { response := HttpResponse.redirect
              (r.referrer.getD "owner_business.view_bookings"),
            flashes := [("Booking " ++ booking_id
              ++ " accepted successfully! Customer will be notified.",
              "success")],
            db := db1, execCalls := 1 }
      | Except.error e =>
        if r.xhrHeader then
          { response := HttpResponse.json 400 false (some e), db := db,
            execCalls := 1 }
        else
          { response := HttpResponse.redirect "owner_business.view_booking_detail",
            flashes := [("Cannot accept booking: " ++ e, "danger")],
            db := db, execCalls := 1 }

/-- From `views/owner_business.py` `reject_booking` (body inside the
decorator): same pre-checks as accept, one `RejectBookingCommand.execute`;
its `ValueError` branch answers 400 for any `is_ajax_request`. -/
def reject_booking (booking_id : String) (now : Time)
    (r : Request) (db : Db) : ViewResult :=
  match db.getBooking booking_id with
  | none =>
    if is_ajax_request r then
      { response := HttpResponse.json 404 false (some "Booking not found"),
        db := db }
    else
      { response := HttpResponse.redirect "owner_business.view_bookings",
        flashes := [("Booking not found", "danger")], db := db }
  | some booking =>
    let ownerOk :=
      match db.getBusiness booking.business_id with
      | none => false
      | some business => business.owner_id == some r.user_id
    if !ownerOk then
      if is_ajax_request r then
        { response := HttpResponse.json 403 false (some "Unauthorized"), db := db }
      else
        { response := HttpResponse.redirect "owner_business.view_bookings",
          flashes := [("You are not authorized to reject this booking", "danger")],
          db := db }
    else
      match RejectBookingCommand.execute db booking_id r.user_id now with
      | Except.ok (db1, _result) =>
        if is_ajax_request r then
          { response := HttpResponse.json 200 true none, db := db1, execCalls := 1 }
        else
          { response := HttpResponse.redirect
              (r.referrer.getD "owner_business.view_booking_detail"),
            flashes := [("Booking rejected successfully!", "success")],
            db := db1, execCalls := 1 }
      | Except.error e =>
        if is_ajax_request r then
          { response := HttpResponse.json 400 false (some e), db := db,
            execCalls := 1 }
        else
          { response := HttpResponse.redirect "owner_business.view_booking_detail",
            flashes := [("Cannot reject booking: " ++ e, "danger")],
            db := db, execCalls := 1 }

/-- The accept endpoint as routed: decorator around the view body. -/
def accept_booking_endpoint (booking_id : String) (now : Time)
    (r : Request) (db : Db) : ViewResult :=
  business_owner_required (accept_booking booking_id now) r db

/-- The reject endpoint as routed: decorator around the view body. -/
def reject_booking_endpoint (booking_id : String) (now : Time)
    (r : Request) (db : Db) : ViewResult :=
  business_owner_required (reject_booking booking_id now) r db

/-! ## Admin and business-controller operations
(`views/admin.py`, `controllers/business_controller.py`) -/

/-- From `controllers/business_controller.py` `deactivate_business`: look the
business up; when found set `is_active = False`, refresh `updated_at`,
save. Returns the business when found (`None` otherwise). -/
def deactivate_business (db : Db) (business_id : String) (now : Time) :
    Db × Option Business :=
  match db.getBusiness business_id with
  | none => (db, none)
  | some business =>
    let b1 := { business with is_active := false, updated_at := now }
    (db.saveBusiness b1, some b1)

/-- From `views/admin.py` `toggle_business_status`: flip `is_active` and
save; a missing business only flashes. Always redirects. -/
def toggle_business_status (db : Db) (business_id : String) :
    Db × HttpResponse × List (String × String) :=
  match db.getBusiness business_id with
  | none =>
    (db, HttpResponse.redirect "admin.business_detail",
      [("Business not found", "danger")])
  | some business =>
    let b1 := { business with is_active := !business.is_active }
    let word := if b1.is_active then "activated" else "deactivated"
    (db.saveBusiness b1, HttpResponse.redirect "admin.business_detail",
      [("Business " ++ business.name ++ " " ++ word ++ " successfully",
        "success")])

/-- From `controllers/business_controller.py` `deactivate_service`: look
the service up; when found set `is_active = False`, refresh
`updated_at`, save. Returns the service when found (`None` otherwise). -/
def deactivate_service (db : Db) (service_id : String) (now : Time) :
    Db × Option Service :=
  match db.getService service_id with
  | none => (db, none)
  | some s =>
    let s1 := { s with is_active := false, updated_at := now }
    (db.saveService s1, some s1)

/-- Removal of the (unique-keyed) user document with the given id, as a
pymongo `delete_one` on the users collection does. -/
def removeFirstUser (l : List User) (uid : String) : List User :=
  match l with
  | [] => []
  | u :: t => if u.user_id == uid then t else u :: removeFirstUser t uid

/-- From `service provider/app/routes/user_routes.py` `delete_user`: the
DELETE route delegates to `UserService.delete_user`; that service module
is not under src, but the route reads `deleted_count` from its result —
the pymongo DeleteResult interface of a `delete_one` on the users
collection — so the missing method is modelled as removing the user
document with that id. A zero count answers 404 JSON, otherwise 200
with a deleted message. -/
def delete_user (db : Db) (user_id : String) : Db × HttpResponse :=
  match db.getUser user_id with
  | none => (db, HttpResponse.json 404 false (some "not found"))
  | some _ =>
    ({ db with users := removeFirstUser db.users user_id },
      HttpResponse.json 200 true none)

/-- From `CategoryModel.objects(name=name).first()`. -/
def Db.findCategory (db : Db) (name : String) : Option CategoryModel :=
  db.categories.find? (fun c => c.name == name)

/-- From `Business.objects(category=name).count()`. -/
def Db.businessCategoryCount (db : Db) (name : String) : Nat :=
  (db.businesses.filter (fun b => b.category == name)).length

/-- From `views/admin.py` `delete_category`: a missing DB record or a nonzero
usage count only flashes; otherwise the category document is removed
(`cat.delete()`). Always redirects to the categories page. -/
def delete_category (db : Db) (name : String) :
    Db × HttpResponse × List (String × String) :=
  match db.findCategory name with
  | none =>
    (db, HttpResponse.redirect "admin.categories",
      [("This category is built-in or does not exist in the database and cannot be deleted.",
        "warning")])
  | some _ =>
    let usage := db.businessCategoryCount name
    if usage > 0 then
      (db, HttpResponse.redirect "admin.categories",
        [("Cannot delete " ++ name ++ ": it is used by " ++ toString usage
          ++ " business(es).", "danger")])
    else
      ({ db with categories := db.categories.filter (fun c => !(c.name == name)) },
        HttpResponse.redirect "admin.categories",
        [("Category " ++ name ++ " deleted successfully.", "success")])

/-! ## Spec-side predicates

These definitions follow the specification's words, to be compared with
the behaviour of the embedded code. -/

/-- The specification's conflict condition: some stored booking of the
business in a non-terminal status (`requested` or `accepted`) has a time
interval `[booking_time, booking_time + duration_minutes)` overlapping
the candidate interval `[start, start + duration)`. -/
def specConflictExists (db : Db) (business_id : String) (start : Time)
    (duration : Int) : Bool :=
  db.bookings.any (fun bk =>
    bk.business_id == business_id
      && (bk.status == "requested" || bk.status == "accepted")
      && decide (bk.booking_time < start + duration)
      && decide (start < bk.booking_time + bk.duration_minutes))

/-- The five transitions the specification permits. -/
def allowedTransition (current new : String) : Prop :=
  (current = "requested" ∧
    (new = "accepted" ∨ new = "rejected" ∨ new = "cancelled"))
  ∨ (current = "accepted" ∧ (new = "completed" ∨ new = "cancelled"))

/-- Position of a status in the specification's fixed forward order
`requested, accepted, rejected, cancelled, completed`. -/
def statusIndex (s : String) : Nat :=
  if s == "requested" then 0
  else if s == "accepted" then 1
  else if s == "rejected" then 2
  else if s == "cancelled" then 3
  else if s == "completed" then 4
  else 5

/-! ## Concrete fixtures -/

/-- A business owned by user `u1`. -/
def bizFix : Business :=
  { business_id := "biz1", owner_id := some "u1", name := "Biz",
    category := "cleaning" }

/-- A 30-minute service of `biz1`. -/
def svcFix : Service :=
  { service_id := "s1", business_id := "biz1", name := "Clean",
    duration_minutes := 30 }

/-- An early booking of `biz1`: interval `[0, 10)`. -/
def bookingEarly : Booking :=
  { booking_id := "bA", business_id := "biz1", service_id := "s1",
    customer_id := "c1", booking_time := 0, duration_minutes := 10 }

/-- A later booking of `biz1`: interval `[25, 35)`. -/
def bookingLate : Booking :=
  { booking_id := "bB", business_id := "biz1", service_id := "s1",
    customer_id := "c1", booking_time := 25, duration_minutes := 10 }

/-- Database for the conflict-check claim: two stored `requested`
bookings of `biz1`, the earlier one first in natural order. -/
def dbConflict : Db :=
  { bookings := [bookingEarly, bookingLate], businesses := [bizFix],
    services := [svcFix],
    users := [{ user_id := "c1" }, { user_id := "u1", role := "business_owner" }] }

/-- A booking of `biz1` already in the `accepted` state. -/
def bookingAccepted : Booking :=
  { booking_id := "b1", business_id := "biz1", service_id := "s1",
    customer_id := "c1", booking_time := 50, duration_minutes := 30,
    status := "accepted", timestamps := [("requested_at", 0), ("accepted_at", 1)] }

/-- Database for the view claims: one accepted booking of `biz1`. -/
def dbAccepted : Db :=
  { bookings := [bookingAccepted], businesses := [bizFix],
    services := [svcFix],
    users := [{ user_id := "c1" }, { user_id := "u1", role := "business_owner" }] }

/-- A completed booking, for the backward-move counterexample. -/
def bookingCompleted : Booking :=
  { booking_id := "b2", business_id := "biz1", service_id := "s1",
    customer_id := "c1", booking_time := 90, duration_minutes := 30,
    status := "completed",
    timestamps := [("requested_at", 0), ("accepted_at", 1), ("completed_at", 2)] }

/-- An authenticated business-owner request marked as AJAX only through
its Accept header (no `X-Requested-With`, no JSON body). -/
def reqAcceptJson : Request :=
  { authenticated := true, role := "business_owner", user_id := "u1",
    xhrHeader := false, isJson := false, acceptJson := true }

/-- Database with one unused admin-registered category. -/
def dbExtraCategory : Db :=
  { categories := [{ name := "extra", display_name := "Extra" }] }

/-- Fixture: `bookingAccepted` after `update_status "completed"` at time 100. -/
def bookingDoneFix : Booking :=
  { bookingAccepted with
    status := "completed",
    timestamps := dictSet bookingAccepted.timestamps "completed_at" 100,
    updated_at := 100 }

/-- Fixture: `dbAccepted` after saving `bookingDoneFix`. -/
def dbDoneFix : Db := dbAccepted.saveBooking bookingDoneFix

/-- A requested booking of `biz1` with interval `[60, 90)`, overlapping
`bookingAccepted` (`[50, 80)`). -/
def bookingOverlapReq : Booking :=
  { booking_id := "b3", business_id := "biz1", service_id := "s1",
    customer_id := "c1", booking_time := 60, duration_minutes := 30,
    timestamps := [("requested_at", 3)] }

/-- Database for the accept-without-conflict-check claim: a requested
booking of `biz1` overlapping an already accepted one. -/
def dbOverlapRequested : Db :=
  { bookings := [bookingAccepted, bookingOverlapReq],
    businesses := [bizFix], services := [svcFix],
    users := [{ user_id := "c1" }, { user_id := "u1", role := "business_owner" }] }

/-! ## Helper lemmas -/

/-- Writing a key into the timestamps dict makes it readable back. -/
theorem dictGet_dictSet (m : List (String × Time)) (k : String) (v : Time) :
    dictGet (dictSet m k v) k = some v := by
  induction m with
  | nil => simp [dictSet, dictGet]
  | cons p t ih =>
    by_cases hp : (p.1 == k) = true
    · have hpk : p.1 = k := by simpa using hp
      have hcons : dictSet (p :: t) k v
          = (k, v) :: t.map (fun q => if q.1 == k then (k, v) else q) := by
        simp [dictSet, List.any_cons, hp, hpk]
      rw [hcons]
      simp [dictGet, List.find?]
    · have hp' : (p.1 == k) = false := by simpa using hp
      have hpk : ¬p.1 = k := by simpa using hp
      have hcons : dictSet (p :: t) k v = p :: dictSet t k v := by
        by_cases ht : t.any (fun q => q.1 == k) <;>
          simp [dictSet, List.any_cons, hp', hpk, ht]
      rw [hcons]
      simpa [dictGet, List.find?_cons, hp'] using ih

/-- The transition table of `update_booking_status` contains exactly the
five transitions of the specification. -/
theorem valid_transitions_iff (current new : String) :
    (valid_transitions current).contains new = true ↔
      allowedTransition current new := by
  unfold valid_transitions allowedTransition
  by_cases h1 : (current == "requested") = true
  · simp_all [List.contains, beq_iff_eq]
    try tauto
  · by_cases h2 : (current == "accepted") = true
    · simp_all [List.contains, beq_iff_eq]
      try tauto
    · simp_all [beq_iff_eq, List.contains]

/-- Every permitted transition strictly increases the position in the
fixed status order. -/
theorem allowedTransition_statusIndex_lt (current new : String)
    (h : allowedTransition current new) :
    statusIndex current < statusIndex new := by
  rcases h with ⟨hc, hn | hn | hn⟩ | ⟨hc, hn | hn⟩ <;> subst hc <;> subst hn <;>
    decide

/-- A found element witnesses that filtering its matches away shortens
the list. -/
theorem length_filter_not_lt_of_find {α : Type} (l : List α) (p : α → Bool)
    (c : α) (h : l.find? p = some c) :
    (l.filter (fun x => !(p x))).length < l.length := by
  induction l with
  | nil => simp at h
  | cons a t ih =>
    by_cases ha : p a = true
    · have : (a :: t).filter (fun x => !(p x)) = t.filter (fun x => !(p x)) := by
        simp [List.filter, ha]
      rw [this]
      exact Nat.lt_succ_of_le (List.length_filter_le _ t)
    · rw [List.find?] at h
      rw [Bool.of_not_eq_true ha] at h
      have hstep : (a :: t).filter (fun x => !(p x)) =
          a :: t.filter (fun x => !(p x)) := by
        simp [List.filter, ha]
      rw [hstep]
      simpa [List.length_cons, Nat.succ_lt_succ_iff] using ih h

/-- Running `notify` yields exactly one outcome per attached observer. -/
theorem notify_length (observers : List BookingObserver) (db : Db)
    (b : Booking) (s : String) :
    (BookingNotificationSubject.notify observers db b s).2.length
      = observers.length := by
  induction observers generalizing db with
  | nil => simp [BookingNotificationSubject.notify]
  | cons o rest ih =>
    rw [BookingNotificationSubject.notify]
    cases h : o db b s with
    | ok pr => simp [ih]
    | error m => simp [ih]

/-- Running `notify` over a concatenation of observer lists runs the first list,
then the second on the database the first produced, appending outcomes. -/
theorem notify_append (xs ys : List BookingObserver) (db : Db)
    (b : Booking) (s : String) :
    BookingNotificationSubject.notify (xs ++ ys) db b s
      = ((BookingNotificationSubject.notify ys
            (BookingNotificationSubject.notify xs db b s).1 b s).1,
         (BookingNotificationSubject.notify xs db b s).2
           ++ (BookingNotificationSubject.notify ys
                 (BookingNotificationSubject.notify xs db b s).1 b s).2) := by
  induction xs generalizing db with
  | nil => simp [BookingNotificationSubject.notify]
  | cons o rest ih =>
    rw [List.cons_append, BookingNotificationSubject.notify,
      BookingNotificationSubject.notify]
    cases h : o db b s with
    | ok pr => simp [h, ih]
    | error m => simp [h, ih]

/-- The observer `EmailNotifier.update` returns the database unchanged. -/
theorem email_update_frame (db : Db) (b : Booking) (s : String) :
    ∃ effs, EmailNotifier.update db b s = Except.ok (db, effs) := by
  unfold EmailNotifier.update
  cases db.getUser b.customer_id <;> cases db.getBusiness b.business_id <;> simp

/-- The observer `SMSNotifier.update` returns the database unchanged. -/
theorem sms_update_frame (db : Db) (b : Booking) (s : String) :
    ∃ effs, SMSNotifier.update db b s = Except.ok (db, effs) := by
  unfold SMSNotifier.update
  cases db.getUser b.customer_id <;> cases db.getBusiness b.business_id <;> simp

/-- The observer `BusinessNotifier.update` returns the database unchanged. -/
theorem business_update_frame (db : Db) (b : Booking) (s : String) :
    ∃ effs, BusinessNotifier.update db b s = Except.ok (db, effs) := by
  unfold BusinessNotifier.update
  cases db.getBusiness b.business_id with
  | none => simp
  | some biz =>
    cases h1 : biz.owner_id.bind db.getUser <;>
      cases h2 : db.getUser b.customer_id <;>
        (simp [h1, h2]; try (split_ifs <;> simp))

/-! ## Claim theorems -/

/-- C1: in `dbConflict` the new interval `[20, 50)` overlaps the stored
non-terminal booking `bookingLate` (`[25, 35)`), yet
`CreateBookingCommand.execute` succeeds and saves a third booking: the
conflict check examines only the first stored candidate (`[0, 10)`,
whose end does not exceed the new start), so an existing overlapping
non-terminal booking does not make creation fail. -/
theorem create_booking_misses_overlapping_conflict :
    specConflictExists dbConflict "biz1" 20 30 = true
    ∧ (CreateBookingCommand.execute dbConflict "c1" "s1" 20 none none
          "cash" "new1" 100).toOption.map (fun r => r.1.bookings.length)
        = some 3 := by
  exact ⟨rfl, rfl⟩

/-- C3 counterexample: `Booking.update_status` accepts a move from the
terminal `completed` back to `requested` (it validates only membership
in the status set), and `AcceptBookingCommand.undo` moves an `accepted`
booking back to `requested`; both contradict forward-only movement. -/
theorem booking_status_moves_backward :
    Except.map Booking.status
        (Booking.update_status bookingCompleted "requested" 5)
      = Except.ok "requested"
    ∧ (AcceptBookingCommand.undo dbAccepted (some bookingAccepted)).toOption.map
        (fun d => (d.getBooking "b1").map Booking.status)
      = some (some "requested")
    ∧ statusIndex "requested" < statusIndex "completed" := by
  refine ⟨rfl, rfl, by decide⟩

/-- C4 counterexample: `delete_category` on an unused admin-registered
category removes its document, so the set of stored documents shrinks. -/
theorem delete_category_shrinks_documents :
    (delete_category dbExtraCategory "extra").1.categories.length = 0
    ∧ dbExtraCategory.categories.length = 1 := by
  exact ⟨rfl, rfl⟩

/-- C5 counterexample: a request that `is_ajax_request` classifies as
AJAX (Accept header only) hitting the invalid-transition error on the
accept endpoint receives a flash redirect, not a 400 JSON response,
because that branch tests only the `X-Requested-With` header. -/
theorem accept_ajax_invalid_transition_not_400 :
    is_ajax_request reqAcceptJson = true
    ∧ bookingAccepted.status ≠ "requested"
    ∧ (accept_booking_endpoint "b1" 100 reqAcceptJson dbAccepted).response
        = HttpResponse.redirect "owner_business.view_booking_detail" := by
  refine ⟨rfl, by decide, rfl⟩

/-- C7: the observer fan-out on a booking status change leaves the
database — the booking document and every other stored document —
unchanged: the three default notifiers only produce log and flash
effects (the only effects the observer type can emit). -/
theorem notify_booking_status_change_frame (db : Db) (b : Booking)
    (s : String) :
    (notify_booking_status_change db b s).1 = db := by
  obtain ⟨e1, h1⟩ := email_update_frame db b s
  obtain ⟨e2, h2⟩ := sms_update_frame db b s
  obtain ⟨e3, h3⟩ := business_update_frame db b s
  simp [notify_booking_status_change, defaultObservers,
    BookingNotificationSubject.notify, h1, h2, h3]

/-- C8: a raising observer is caught by `notify`: each attached observer
still yields exactly one outcome, the failing observer contributes only
its caught error and does not change the database the other observers
run against (so a status update saved before notification stays saved),
and `notify` returns normally. -/
theorem notify_isolates_observer_failures (pre post : List BookingObserver)
    (bad : BookingObserver) (msg : String) (db : Db) (b : Booking)
    (s : String) (hbad : ∀ d, bad d b s = Except.error msg) :
    (BookingNotificationSubject.notify (pre ++ bad :: post) db b s).2.length
        = pre.length + 1 + post.length
    ∧ (BookingNotificationSubject.notify (pre ++ bad :: post) db b s).1
        = (BookingNotificationSubject.notify (pre ++ post) db b s).1
    ∧ (BookingNotificationSubject.notify (pre ++ bad :: post) db b s).2
        = (BookingNotificationSubject.notify pre db b s).2
          ++ NotifyOutcome.failed msg
            :: (BookingNotificationSubject.notify post
                  (BookingNotificationSubject.notify pre db b s).1 b s).2 := by
  have hstep : BookingNotificationSubject.notify (bad :: post)
      (BookingNotificationSubject.notify pre db b s).1 b s
      = ((BookingNotificationSubject.notify post
            (BookingNotificationSubject.notify pre db b s).1 b s).1,
         NotifyOutcome.failed msg
           :: (BookingNotificationSubject.notify post
                 (BookingNotificationSubject.notify pre db b s).1 b s).2) := by
    rw [BookingNotificationSubject.notify, hbad]
  refine ⟨?_, ?_, ?_⟩
  · rw [notify_length]
    simp [List.length_append]
    omega
  · rw [notify_append, hstep, notify_append]
  · rw [notify_append, hstep]

/-- A permitted transition's target is a member of `BOOKING_STATUSES`. -/
theorem allowedTransition_mem_statuses (current new : String)
    (h : allowedTransition current new) :
    BOOKING_STATUSES.contains new = true := by
  rcases h with ⟨hc, hn | hn | hn⟩ | ⟨hc, hn | hn⟩ <;> subst hn <;> decide

/-- Applying `Booking.update_status` on a status from the fixed set succeeds and
writes the status, its timestamp, and `updated_at`. -/
theorem update_status_ok (b : Booking) (s2 : String) (now : Time)
    (h : BOOKING_STATUSES.contains s2 = true) :
    Booking.update_status b s2 now = Except.ok { b with
      status := s2,
      timestamps := dictSet b.timestamps (s2 ++ "_at") now,
      updated_at := now } := by
  have h2 : s2 ∈ BOOKING_STATUSES := by simpa using h
  simp [Booking.update_status, h2]

/-- Membership form of `valid_transitions_iff`. -/
theorem valid_transitions_mem_iff (current new : String) :
    new ∈ valid_transitions current ↔ allowedTransition current new := by
  simpa using valid_transitions_iff current new

/-- C2: the status-changing operations permit exactly the specified
transitions. `update_booking_status` succeeds iff the transition table
allows the move (and then writes the new status); accept and reject
succeed only from `requested` (and only for the business owner),
complete only from `accepted`, cancel only from `requested` or
`accepted`; in every other case the operation raises and, the save
being reached only on success, the stored booking stays unchanged. -/
theorem booking_status_transition_guards (db : Db) (bid ns uid : String)
    (now : Time) (b : Booking) (hb : db.getBooking bid = some b) :
    ((∃ r, update_booking_status db bid ns now = Except.ok r) ↔
        allowedTransition b.status ns)
    ∧ (∀ db2 b2, update_booking_status db bid ns now = Except.ok (db2, b2) →
        b2.status = ns)
    ∧ ((∃ r, AcceptBookingCommand.execute db bid uid now = Except.ok r) ↔
        (∃ biz, db.getBusiness b.business_id = some biz
          ∧ biz.owner_id = some uid) ∧ b.status = "requested")
    ∧ ((∃ r, RejectBookingCommand.execute db bid uid now = Except.ok r) ↔
        (∃ biz, db.getBusiness b.business_id = some biz
          ∧ biz.owner_id = some uid) ∧ b.status = "requested")
    ∧ ((∃ r, CompleteBookingCommand.execute db bid now = Except.ok r) ↔
        b.status = "accepted")
    ∧ ((∃ r, CancelBookingCommand.execute db bid now = Except.ok r) ↔
        (b.status = "requested" ∨ b.status = "accepted")) := by
  refine ⟨?_, ?_, ?_, ?_, ?_, ?_⟩
  · by_cases hc : ns ∈ valid_transitions b.status
    · have ha := (valid_transitions_mem_iff b.status ns).mp hc
      have hok := update_status_ok b ns now (allowedTransition_mem_statuses _ _ ha)
      simp [update_booking_status, hb, hc, hok, ha]
    · have ha : ¬allowedTransition b.status ns :=
        fun h => hc ((valid_transitions_mem_iff b.status ns).mpr h)
      simp [update_booking_status, hb, hc, ha]
  · by_cases hc : ns ∈ valid_transitions b.status
    · have ha := (valid_transitions_mem_iff b.status ns).mp hc
      have hok := update_status_ok b ns now (allowedTransition_mem_statuses _ _ ha)
      simp [update_booking_status, hb, hc, hok]
    · simp [update_booking_status, hb, hc]
  · cases hbiz : db.getBusiness b.business_id with
    | none => simp [AcceptBookingCommand.execute, hb, hbiz]
    | some biz =>
      by_cases hown : biz.owner_id = some uid
      · by_cases hs : b.status = "requested"
        · have hok := update_status_ok b "accepted" now (by decide)
          simp [AcceptBookingCommand.execute, hb, hbiz, hown, hs, hok]
        · simp [AcceptBookingCommand.execute, hb, hbiz, hown, hs]
      · simp [AcceptBookingCommand.execute, hb, hbiz, hown]
  · cases hbiz : db.getBusiness b.business_id with
    | none => simp [RejectBookingCommand.execute, hb, hbiz]
    | some biz =>
      by_cases hown : biz.owner_id = some uid
      · by_cases hs : b.status = "requested"
        · have hok := update_status_ok b "rejected" now (by decide)
          simp [RejectBookingCommand.execute, hb, hbiz, hown, hs, hok]
        · simp [RejectBookingCommand.execute, hb, hbiz, hown, hs]
      · simp [RejectBookingCommand.execute, hb, hbiz, hown]
  · by_cases hs : b.status = "accepted"
    · have hok := update_status_ok b "completed" now (by decide)
      simp [CompleteBookingCommand.execute, hb, hs, hok]
    · simp [CompleteBookingCommand.execute, hb, hs]
  · by_cases hs1 : b.status = "requested"
    · have hok := update_status_ok b "cancelled" now (by decide)
      simp [CancelBookingCommand.execute, hb, hs1, hok]
    · by_cases hs2 : b.status = "accepted"
      · have hok := update_status_ok b "cancelled" now (by decide)
        simp [CancelBookingCommand.execute, hb, hs1, hs2, hok]
      · simp [CancelBookingCommand.execute, hb, hs1, hs2]

/-- C2 witness: completing the concrete accepted booking succeeds. -/
theorem booking_status_transition_guards_witness :
    ∃ r, CompleteBookingCommand.execute dbAccepted "b1" 100 = Except.ok r := by
  have h := booking_status_transition_guards dbAccepted "b1" "completed" "u1"
    100 bookingAccepted rfl
  exact h.2.2.2.2.1.mpr rfl

/-- C3 amended: through the transition-guarded operations —
`update_booking_status` and the commands' `execute` methods — a
booking's status strictly advances in the fixed order `requested,
accepted, rejected, cancelled, completed`, and every such change records
`<status>_at` in the timestamps map (the model's `update_status` itself
and the commands' `undo` methods are not so guarded). -/
theorem guarded_operations_move_status_forward (db : Db)
    (bid ns uid : String) (now : Time) (b : Booking)
    (hb : db.getBooking bid = some b) :
    (∀ db2 b2, update_booking_status db bid ns now = Except.ok (db2, b2) →
        statusIndex b.status < statusIndex b2.status
        ∧ dictGet b2.timestamps (ns ++ "_at") = some now)
    ∧ (∀ db2 b2,
        AcceptBookingCommand.execute db bid uid now = Except.ok (db2, b2) →
        statusIndex b.status < statusIndex b2.status
        ∧ dictGet b2.timestamps "accepted_at" = some now)
    ∧ (∀ db2 b2,
        RejectBookingCommand.execute db bid uid now = Except.ok (db2, b2) →
        statusIndex b.status < statusIndex b2.status
        ∧ dictGet b2.timestamps "rejected_at" = some now)
    ∧ (∀ db2 b2,
        CompleteBookingCommand.execute db bid now = Except.ok (db2, b2) →
        statusIndex b.status < statusIndex b2.status
        ∧ dictGet b2.timestamps "completed_at" = some now)
    ∧ (∀ db2 b2 prev,
        CancelBookingCommand.execute db bid now = Except.ok (db2, b2, prev) →
        statusIndex b.status < statusIndex b2.status
        ∧ dictGet b2.timestamps "cancelled_at" = some now) := by
  refine ⟨?_, ?_, ?_, ?_, ?_⟩
  · by_cases hc : ns ∈ valid_transitions b.status
    · have ha := (valid_transitions_mem_iff b.status ns).mp hc
      have hok := update_status_ok b ns now (allowedTransition_mem_statuses _ _ ha)
      have hlt := allowedTransition_statusIndex_lt _ _ ha
      simp [update_booking_status, hb, hc, hok, dictGet_dictSet, hlt]
    · simp [update_booking_status, hb, hc]
  · cases hbiz : db.getBusiness b.business_id with
    | none => simp [AcceptBookingCommand.execute, hb, hbiz]
    | some biz =>
      by_cases hown : biz.owner_id = some uid
      · by_cases hs : b.status = "requested"
        · have hok := update_status_ok b "accepted" now (by decide)
          have hlt : statusIndex "requested" < statusIndex "accepted" := by decide
          simp [AcceptBookingCommand.execute, hb, hbiz, hown, hs, hok,
            dictGet_dictSet, hlt]
        · simp [AcceptBookingCommand.execute, hb, hbiz, hown, hs]
      · simp [AcceptBookingCommand.execute, hb, hbiz, hown]
  · cases hbiz : db.getBusiness b.business_id with
    | none => simp [RejectBookingCommand.execute, hb, hbiz]
    | some biz =>
      by_cases hown : biz.owner_id = some uid
      · by_cases hs : b.status = "requested"
        · have hok := update_status_ok b "rejected" now (by decide)
          have hlt : statusIndex "requested" < statusIndex "rejected" := by decide
          simp [RejectBookingCommand.execute, hb, hbiz, hown, hs, hok,
            dictGet_dictSet, hlt]
        · simp [RejectBookingCommand.execute, hb, hbiz, hown, hs]
      · simp [RejectBookingCommand.execute, hb, hbiz, hown]
  · by_cases hs : b.status = "accepted"
    · have hok := update_status_ok b "completed" now (by decide)
      have hlt : statusIndex "accepted" < statusIndex "completed" := by decide
      simp [CompleteBookingCommand.execute, hb, hs, hok, dictGet_dictSet, hlt]
    · simp [CompleteBookingCommand.execute, hb, hs]
  · by_cases hs1 : b.status = "requested"
    · have hok := update_status_ok b "cancelled" now (by decide)
      have hlt : statusIndex "requested" < statusIndex "cancelled" := by decide
      simp [CancelBookingCommand.execute, hb, hs1, hok, dictGet_dictSet, hlt]
    · by_cases hs2 : b.status = "accepted"
      · have hok := update_status_ok b "cancelled" now (by decide)
        have hlt : statusIndex "accepted" < statusIndex "cancelled" := by decide
        simp [CancelBookingCommand.execute, hb, hs1, hs2, hok,
          dictGet_dictSet, hlt]
      · simp [CancelBookingCommand.execute, hb, hs1, hs2]

/-- C3 amended witness: completing the concrete accepted booking moves
its status forward and records the completion timestamp. -/
theorem guarded_operations_move_status_forward_witness :
    statusIndex bookingAccepted.status < statusIndex bookingDoneFix.status
    ∧ dictGet bookingDoneFix.timestamps "completed_at" = some 100 :=
  (guarded_operations_move_status_forward dbAccepted "b1" "completed" "u1"
    100 bookingAccepted rfl).2.2.2.1 dbDoneFix bookingDoneFix (by rfl)

/-- C9: accepting performs no conflict check: for any database — in
particular one holding another non-terminal booking overlapping the
target — a `requested` booking whose business is owned by the executing
user is accepted; and a failure can only come from a missing booking,
unresolved or wrong ownership, or a status other than `requested`. -/
theorem accept_booking_no_conflict_check (db : Db) (bid uid : String)
    (now : Time) :
    (∀ b biz, db.getBooking bid = some b → b.status = "requested" →
        db.getBusiness b.business_id = some biz → biz.owner_id = some uid →
        ∃ db2 b2,
          AcceptBookingCommand.execute db bid uid now = Except.ok (db2, b2)
          ∧ b2.status = "accepted")
    ∧ ((∃ e, AcceptBookingCommand.execute db bid uid now = Except.error e) →
        db.getBooking bid = none
        ∨ ∃ b, db.getBooking bid = some b
            ∧ (db.getBusiness b.business_id = none
               ∨ (∃ biz, db.getBusiness b.business_id = some biz
                    ∧ biz.owner_id ≠ some uid)
               ∨ b.status ≠ "requested")) := by
  constructor
  · intro b biz hb hs hbiz hown
    have hok := update_status_ok b "accepted" now (by decide)
    simp [AcceptBookingCommand.execute, hb, hbiz, hown, hs, hok]
    exact ⟨_, _, ⟨rfl, rfl⟩, rfl⟩
  · intro he
    cases hb : db.getBooking bid with
    | none => exact Or.inl rfl
    | some b =>
      refine Or.inr ⟨b, rfl, ?_⟩
      cases hbiz : db.getBusiness b.business_id with
      | none => exact Or.inl rfl
      | some biz =>
        by_cases hown : biz.owner_id = some uid
        · by_cases hs : b.status = "requested"
          · exfalso
            obtain ⟨e, he⟩ := he
            have hok := update_status_ok b "accepted" now (by decide)
            simp [AcceptBookingCommand.execute, hb, hbiz, hown, hs, hok] at he
          · exact Or.inr (Or.inr hs)
        · exact Or.inr (Or.inl ⟨biz, rfl, hown⟩)

/-- C9 witness: in `dbOverlapRequested` — where the accepted booking
`[50, 80)` overlaps the requested booking `[60, 90)` — accepting the
requested one still succeeds. -/
theorem accept_booking_no_conflict_check_witness :
    specConflictExists dbOverlapRequested "biz1" 60 30 = true
    ∧ ∃ db2 b2,
        AcceptBookingCommand.execute dbOverlapRequested "b3" "u1" 100
          = Except.ok (db2, b2) ∧ b2.status = "accepted" :=
  ⟨rfl,
    (accept_booking_no_conflict_check dbOverlapRequested "b3" "u1" 100).1
      bookingOverlapReq bizFix rfl rfl rfl rfl⟩

/-- C10: `delete_category` removes a category document exactly when the
category exists as a DB-backed record and no business references it by
name; in every other case the database is unchanged; all other
collections are never touched and the admin is always redirected. -/
theorem delete_category_only_when_unused (db : Db) (cname : String) :
    ((delete_category db cname).2.1 = HttpResponse.redirect "admin.categories")
    ∧ ((delete_category db cname).1.bookings = db.bookings
        ∧ (delete_category db cname).1.businesses = db.businesses
        ∧ (delete_category db cname).1.services = db.services
        ∧ (delete_category db cname).1.users = db.users)
    ∧ ((delete_category db cname).1.categories.length < db.categories.length ↔
        (db.findCategory cname).isSome = true
          ∧ db.businessCategoryCount cname = 0)
    ∧ (¬((db.findCategory cname).isSome = true
          ∧ db.businessCategoryCount cname = 0) →
        (delete_category db cname).1 = db) := by
  cases hfind : db.findCategory cname with
  | none => simp [delete_category, hfind]
  | some c =>
    by_cases husage : db.businessCategoryCount cname = 0
    · have hlt : ((db.categories.filter (fun x => !(x.name == cname))).length
          < db.categories.length) :=
        length_filter_not_lt_of_find db.categories _ c hfind
      simp [delete_category, hfind, husage, hlt]
    · simp [delete_category, hfind, husage, Nat.pos_of_ne_zero husage]

/-- C10 witness: the unused DB-backed category `extra` is removed. -/
theorem delete_category_only_when_unused_witness :
    (delete_category dbExtraCategory "extra").1.categories.length
      < dbExtraCategory.categories.length :=
  (delete_category_only_when_unused dbExtraCategory "extra").2.2.1.mpr
    ⟨rfl, rfl⟩

/-- Saving a business with the key of a found one makes the saved
version the one found afterwards. -/
theorem find_save_business (l : List Business) (key : String)
    (orig b1 : Business)
    (h : l.find? (fun x => x.business_id == key) = some orig)
    (hid : b1.business_id = key) :
    (l.map (fun x => if x.business_id == b1.business_id then b1 else x)).find?
        (fun x => x.business_id == key) = some b1 := by
  have hfun : ((fun x => x.business_id == key) ∘
      (fun x => if x.business_id == b1.business_id then b1 else x))
      = fun x => x.business_id == key := by
    funext x
    by_cases hx : x.business_id = key <;> simp [hx, hid]
  rw [List.find?_map, hfun, h]
  have horigk : orig.business_id = key := by simpa using List.find?_some h
  simp [horigk, hid]

/-- Saving a service with the key of a found one makes the saved
version the one found afterwards. -/
theorem find_save_service (l : List Service) (key : String)
    (orig s1 : Service)
    (h : l.find? (fun x => x.service_id == key) = some orig)
    (hid : s1.service_id = key) :
    (l.map (fun x => if x.service_id == s1.service_id then s1 else x)).find?
        (fun x => x.service_id == key) = some s1 := by
  have hfun : ((fun x => x.service_id == key) ∘
      (fun x => if x.service_id == s1.service_id then s1 else x))
      = fun x => x.service_id == key := by
    funext x
    by_cases hx : x.service_id = key <;> simp [hx, hid]
  rw [List.find?_map, hfun, h]
  have horigk : orig.service_id = key := by simpa using List.find?_some h
  simp [horigk, hid]

/-- Deleting a found user document shortens the users collection. -/
theorem length_removeFirstUser_lt (l : List User) (uid : String) (u : User)
    (h : l.find? (fun x => x.user_id == uid) = some u) :
    (removeFirstUser l uid).length < l.length := by
  induction l with
  | nil => simp at h
  | cons a t ih =>
    by_cases ha : (a.user_id == uid) = true
    · simp [removeFirstUser, ha]
    · have ha' : (a.user_id == uid) = false := by simpa using ha
      rw [List.find?_cons] at h
      rw [ha'] at h
      simp only [removeFirstUser, ha', Bool.false_eq_true, if_false,
        List.length_cons]
      exact Nat.succ_lt_succ (ih h)

/-- C4 amended: the deactivate operations on businesses and services —
`deactivate_business`, the admin business toggle, and
`deactivate_service` — are soft: they keep every stored document and
change only `is_active` (and `updated_at`); but the original universal
claim fails for users and categories, where hard deletes exist: the
user-routes `delete_user` endpoint removes a found user document
outright (200 with a shrunken users collection, 404 and no change when
the user is missing), and admin `delete_category` removes an unused
DB-backed category document (see the counterexample), so the set of
stored documents can shrink. -/
theorem deactivate_is_soft (db : Db) (bid : String) (now : Time) :
    ((deactivate_business db bid now).1.businesses.length
        = db.businesses.length)
    ∧ ((deactivate_business db bid now).1.bookings = db.bookings
        ∧ (deactivate_business db bid now).1.services = db.services
        ∧ (deactivate_business db bid now).1.users = db.users
        ∧ (deactivate_business db bid now).1.categories = db.categories)
    ∧ (∀ biz, db.getBusiness bid = some biz →
        (deactivate_business db bid now).1.getBusiness bid
          = some { biz with is_active := false, updated_at := now })
    ∧ ((toggle_business_status db bid).1.businesses.length
        = db.businesses.length)
    ∧ (∀ biz, db.getBusiness bid = some biz →
        (toggle_business_status db bid).1.getBusiness bid
          = some { biz with is_active := !biz.is_active })
    ∧ ((deactivate_service db bid now).1.services.length
        = db.services.length)
    ∧ ((deactivate_service db bid now).1.bookings = db.bookings
        ∧ (deactivate_service db bid now).1.businesses = db.businesses
        ∧ (deactivate_service db bid now).1.users = db.users
        ∧ (deactivate_service db bid now).1.categories = db.categories)
    ∧ (∀ s, db.getService bid = some s →
        (deactivate_service db bid now).1.getService bid
          = some { s with is_active := false, updated_at := now })
    ∧ (∀ u, db.getUser bid = some u →
        (delete_user db bid).1.users.length < db.users.length
        ∧ (delete_user db bid).2 = HttpResponse.json 200 true none)
    ∧ (db.getUser bid = none →
        (delete_user db bid).1 = db
        ∧ (delete_user db bid).2
            = HttpResponse.json 404 false (some "not found")) := by
  refine ⟨?_, ?_, ?_, ?_, ?_, ?_, ?_, ?_, ?_, ?_⟩
  · cases hfind : db.getBusiness bid <;>
      simp [deactivate_business, hfind, Db.saveBusiness]
  · cases hfind : db.getBusiness bid <;>
      simp [deactivate_business, hfind, Db.saveBusiness]
  · intro biz hfind
    have horigk : biz.business_id = bid := by
      simpa using List.find?_some (hfind : db.businesses.find? _ = some biz)
    have hfind' : db.businesses.find? (fun x => x.business_id == bid)
        = some biz := hfind
    simp only [deactivate_business, Db.getBusiness, Db.saveBusiness, hfind']
    exact find_save_business db.businesses bid biz
      { biz with is_active := false, updated_at := now } hfind
      (by simp [horigk])
  · cases hfind : db.getBusiness bid <;>
      simp [toggle_business_status, hfind, Db.saveBusiness]
  · intro biz hfind
    have horigk : biz.business_id = bid := by
      simpa using List.find?_some (hfind : db.businesses.find? _ = some biz)
    have hfind' : db.businesses.find? (fun x => x.business_id == bid)
        = some biz := hfind
    simp only [toggle_business_status, Db.getBusiness, Db.saveBusiness, hfind']
    exact find_save_business db.businesses bid biz
      { biz with is_active := !biz.is_active } hfind
      (by simp [horigk])
  · cases hfind : db.getService bid with
    | none => simp [deactivate_service, hfind]
    | some s => simp [deactivate_service, hfind, Db.saveService]
  · cases hfind : db.getService bid with
    | none => simp [deactivate_service, hfind]
    | some s => simp [deactivate_service, hfind, Db.saveService]
  · intro s hfind
    have horigk : s.service_id = bid := by
      simpa using List.find?_some (hfind : db.services.find? _ = some s)
    have hfind' : db.services.find? (fun x => x.service_id == bid)
        = some s := hfind
    simp only [deactivate_service, Db.getService, Db.saveService, hfind']
    exact find_save_service db.services bid s
      { s with is_active := false, updated_at := now } hfind
      (by simp [horigk])
  · intro u hfind
    have hfind' : db.users.find? (fun x => x.user_id == bid) = some u := hfind
    constructor
    · simp only [delete_user, Db.getUser, hfind']
      exact length_removeFirstUser_lt db.users bid u hfind'
    · simp [delete_user, Db.getUser, hfind']
  · intro hnone
    have hnone' : db.users.find? (fun x => x.user_id == bid) = none := hnone
    constructor
    · simp [delete_user, Db.getUser, hnone']
    · simp [delete_user, Db.getUser, hnone']

/-- C4 amended witness: deactivating the concrete business keeps its
document, flipping only `is_active`, and deleting the concrete user
shrinks the users collection. -/
theorem deactivate_is_soft_witness :
    ((deactivate_business dbAccepted "biz1" 5).1.getBusiness "biz1"
      = some { bizFix with is_active := false, updated_at := 5 })
    ∧ (delete_user dbAccepted "c1").1.users.length
        < dbAccepted.users.length :=
  ⟨(deactivate_is_soft dbAccepted "biz1" 5).2.2.1 bizFix rfl,
   ((deactivate_is_soft dbAccepted "c1" 5).2.2.2.2.2.2.2.2.1
      { user_id := "c1" } rfl).1⟩

/-- C8 witness: a single always-raising observer is caught and yields
exactly one outcome. -/
theorem notify_isolates_observer_failures_witness :
    (BookingNotificationSubject.notify
        ([] ++ ((fun _ _ _ => Except.error "boom") : BookingObserver) :: [])
        dbAccepted bookingAccepted "accepted").2.length = 0 + 1 + 0 :=
  (notify_isolates_observer_failures [] []
    (fun _ _ _ => Except.error "boom") "boom" dbAccepted bookingAccepted
    "accepted" (fun _ => rfl)).1

/-- C6: the accept/reject request handlers run a booking command's
`execute` at most once per request, and when the command fails the
handler runs it exactly once, keeps the database unchanged, and answers
with a 400 JSON error or a flash redirect — it never re-executes the
command (the retrying `BookingCommandQueue` has no callers). -/
theorem booking_commands_not_retried (bid : String) (now : Time)
    (r : Request) (db : Db) :
    (accept_booking_endpoint bid now r db).execCalls ≤ 1
    ∧ (reject_booking_endpoint bid now r db).execCalls ≤ 1
    ∧ (∀ e b biz, r.authenticated = true → r.role = "business_owner" →
        db.getBooking bid = some b →
        db.getBusiness b.business_id = some biz →
        biz.owner_id = some r.user_id →
        AcceptBookingCommand.execute db bid r.user_id now = Except.error e →
        (accept_booking_endpoint bid now r db).execCalls = 1
        ∧ (accept_booking_endpoint bid now r db).db = db
        ∧ ((accept_booking_endpoint bid now r db).response
              = HttpResponse.json 400 false (some e)
           ∨ (accept_booking_endpoint bid now r db).response
              = HttpResponse.redirect "owner_business.view_booking_detail")) := by
  refine ⟨?_, ?_, ?_⟩
  · simp only [accept_booking_endpoint, business_owner_required, accept_booking]
    repeat' split
    all_goals simp
  · simp only [reject_booking_endpoint, business_owner_required, reject_booking]
    repeat' split
    all_goals simp
  · intro e b biz hauth hrole hb hbiz hown hcmd
    have hroleb : (r.role != "business_owner") = false := by simp [hrole]
    simp only [accept_booking_endpoint, business_owner_required,
      accept_booking, hauth, hroleb, hb, hbiz, hown, hcmd,
      Bool.not_true, Bool.false_eq_true, if_false]
    by_cases hx : r.xhrHeader = true <;> simp [hx]

/-- C6 witness: the failing accept on the concrete accepted booking runs
the command once, keeps the database, and redirects with a flash. -/
theorem booking_commands_not_retried_witness :
    (accept_booking_endpoint "b1" 100 reqAcceptJson dbAccepted).execCalls = 1
    ∧ (accept_booking_endpoint "b1" 100 reqAcceptJson dbAccepted).db
        = dbAccepted
    ∧ ((accept_booking_endpoint "b1" 100 reqAcceptJson dbAccepted).response
          = HttpResponse.json 400 false
              (some "Cannot accept booking with status: accepted")
       ∨ (accept_booking_endpoint "b1" 100 reqAcceptJson dbAccepted).response
          = HttpResponse.redirect "owner_business.view_booking_detail") :=
  (booking_commands_not_retried "b1" 100 reqAcceptJson dbAccepted).2.2
    "Cannot accept booking with status: accepted" bookingAccepted bizFix
    rfl rfl rfl rfl rfl (by rfl)

/-- C5 amended: the booking accept/reject endpoints only emit the
conventional codes 200/400/401/403/404 in JSON answers (other paths
redirect with flash messages); a nonexistent booking yields 404 and a
requester who does not own the booking's business yields 403 on either
endpoint exactly for the requests `is_ajax_request` recognizes, and the
reject endpoint's invalid-transition 400 also follows
`is_ajax_request`; but the decorator's 401 for an unauthenticated
request and the accept endpoint's 400 for an invalid transition fire
only when the `X-Requested-With` header is present — an AJAX request
recognized through a JSON body or Accept header gets a flash redirect
there. -/
theorem accept_reject_error_status_codes (bid : String) (now : Time)
    (r : Request) (db : Db) :
    (∀ c ok e, (accept_booking_endpoint bid now r db).response
        = HttpResponse.json c ok e →
        c = 200 ∨ c = 400 ∨ c = 401 ∨ c = 403 ∨ c = 404)
    ∧ (∀ c ok e, (reject_booking_endpoint bid now r db).response
        = HttpResponse.json c ok e →
        c = 200 ∨ c = 400 ∨ c = 401 ∨ c = 403 ∨ c = 404)
    ∧ (r.authenticated = false →
        (((accept_booking_endpoint bid now r db).response
            = HttpResponse.json 401 false (some "Authentication required")
          ↔ r.xhrHeader = true)
        ∧ ((reject_booking_endpoint bid now r db).response
            = HttpResponse.json 401 false (some "Authentication required")
          ↔ r.xhrHeader = true)))
    ∧ (∀ b biz, r.authenticated = true → r.role = "business_owner" →
        db.getBooking bid = some b →
        db.getBusiness b.business_id = some biz →
        biz.owner_id = some r.user_id → b.status ≠ "requested" →
        (((accept_booking_endpoint bid now r db).response
            = HttpResponse.json 400 false
                (some ("Cannot accept booking with status: " ++ b.status))
          ↔ r.xhrHeader = true)
        ∧ ((reject_booking_endpoint bid now r db).response
            = HttpResponse.json 400 false
                (some ("Cannot reject booking with status: " ++ b.status))
          ↔ is_ajax_request r = true)))
    ∧ (r.authenticated = true → r.role = "business_owner" →
        db.getBooking bid = none →
        (((accept_booking_endpoint bid now r db).response
            = HttpResponse.json 404 false (some "Booking not found")
          ↔ is_ajax_request r = true)
        ∧ ((reject_booking_endpoint bid now r db).response
            = HttpResponse.json 404 false (some "Booking not found")
          ↔ is_ajax_request r = true)))
    ∧ (∀ b, r.authenticated = true → r.role = "business_owner" →
        db.getBooking bid = some b →
        (db.getBusiness b.business_id = none
         ∨ ∃ biz, db.getBusiness b.business_id = some biz
             ∧ biz.owner_id ≠ some r.user_id) →
        (((accept_booking_endpoint bid now r db).response
            = HttpResponse.json 403 false (some "Unauthorized")
          ↔ is_ajax_request r = true)
        ∧ ((reject_booking_endpoint bid now r db).response
            = HttpResponse.json 403 false (some "Unauthorized")
          ↔ is_ajax_request r = true))) := by
  refine ⟨?_, ?_, ?_, ?_, ?_, ?_⟩
  · simp only [accept_booking_endpoint, business_owner_required, accept_booking]
    repeat' split
    all_goals simp
  · simp only [reject_booking_endpoint, business_owner_required, reject_booking]
    repeat' split
    all_goals simp
  · intro hauth
    constructor
    · simp only [accept_booking_endpoint, business_owner_required, hauth,
        Bool.not_false]
      by_cases hx : r.xhrHeader = true <;> simp [hx]
    · simp only [reject_booking_endpoint, business_owner_required, hauth,
        Bool.not_false]
      by_cases hx : r.xhrHeader = true <;> simp [hx]
  · intro b biz hauth hrole hb hbiz hown hs
    have hroleb : (r.role != "business_owner") = false := by simp [hrole]
    have hsb : (b.status != "requested") = true := by simp [hs]
    have hacc : AcceptBookingCommand.execute db bid r.user_id now
        = Except.error ("Cannot accept booking with status: " ++ b.status) := by
      simp [AcceptBookingCommand.execute, hb, hbiz, hown, hsb]
    have hrej : RejectBookingCommand.execute db bid r.user_id now
        = Except.error ("Cannot reject booking with status: " ++ b.status) := by
      simp [RejectBookingCommand.execute, hb, hbiz, hown, hsb]
    constructor
    · simp only [accept_booking_endpoint, business_owner_required,
        accept_booking, hauth, hroleb, hb, hbiz, hown, hacc,
        Bool.not_true, Bool.false_eq_true, if_false]
      by_cases hx : r.xhrHeader = true <;> simp [hx]
    · simp only [reject_booking_endpoint, business_owner_required,
        reject_booking, hauth, hroleb, hb, hbiz, hown, hrej,
        Bool.not_true, Bool.false_eq_true, if_false]
      by_cases hx : is_ajax_request r = true <;> simp [hx]
  · intro hauth hrole hb
    have hroleb : (r.role != "business_owner") = false := by simp [hrole]
    constructor
    · simp only [accept_booking_endpoint, business_owner_required,
        accept_booking, hauth, hroleb, hb, Bool.not_true,
        Bool.false_eq_true, if_false]
      by_cases hx : is_ajax_request r = true <;> simp [hx]
    · simp only [reject_booking_endpoint, business_owner_required,
        reject_booking, hauth, hroleb, hb, Bool.not_true,
        Bool.false_eq_true, if_false]
      by_cases hx : is_ajax_request r = true <;> simp [hx]
  · intro b hauth hrole hb hfail
    have hroleb : (r.role != "business_owner") = false := by simp [hrole]
    rcases hfail with hnone | ⟨biz, hbiz, hne⟩
    · constructor
      · simp only [accept_booking_endpoint, business_owner_required,
          accept_booking, hauth, hroleb, hb, hnone, Bool.not_true,
          Bool.false_eq_true, if_false]
        by_cases hx : is_ajax_request r = true <;> simp [hx]
      · simp only [reject_booking_endpoint, business_owner_required,
          reject_booking, hauth, hroleb, hb, hnone, Bool.not_true,
          Bool.false_eq_true, if_false]
        by_cases hx : is_ajax_request r = true <;> simp [hx]
    · have hne' : (biz.owner_id == some r.user_id) = false := by
        simp [hne]
      constructor
      · simp only [accept_booking_endpoint, business_owner_required,
          accept_booking, hauth, hroleb, hb, hbiz, hne', Bool.not_true,
          Bool.false_eq_true, if_false]
        by_cases hx : is_ajax_request r = true <;> simp [hx]
      · simp only [reject_booking_endpoint, business_owner_required,
          reject_booking, hauth, hroleb, hb, hbiz, hne', Bool.not_true,
          Bool.false_eq_true, if_false]
        by_cases hx : is_ajax_request r = true <;> simp [hx]

/-- C5 amended witness: for the concrete non-`requested` booking, an
unauthenticated XHR request gets the 401, and the AJAX-by-Accept-header
request gets reject's 400 but not accept's. -/
theorem accept_reject_error_status_codes_witness :
    ((reject_booking_endpoint "b1" 100 reqAcceptJson dbAccepted).response
      = HttpResponse.json 400 false
          (some "Cannot reject booking with status: accepted"))
    ∧ ¬((accept_booking_endpoint "b1" 100 reqAcceptJson dbAccepted).response
      = HttpResponse.json 400 false
          (some "Cannot accept booking with status: accepted")) := by
  have h := (accept_reject_error_status_codes "b1" 100 reqAcceptJson
    dbAccepted).2.2.2.1 bookingAccepted bizFix rfl rfl rfl rfl rfl
    (by decide)
  refine ⟨h.2.mpr rfl, fun hc => ?_⟩
  have := h.1.mp hc
  simp [reqAcceptJson] at this

end ServiceProvider
